import Mathlib

/-!
Verification of the Account REST service (devops-capstone-project).

The request handlers are embedded from `src/service/routes.py`.  The
`Account` entity and the storage layer live in `service/models.py`, which is
not part of the sources available here (only its callers in `routes.py` and
its tests are); those parts are modelled from the specification, §3 and §4.1,
and are marked as such in their doc comments.

HTTP requests are modelled as a content-type header plus a parsed JSON
payload; responses as a status code, a body and an optional Location header.
The relational store is a list of rows plus the next id the storage layer
will assign.
-/

namespace AccountService

/-- Modelled from the spec: `date_joined` is a calendar date; §3 and §6 fix
its wire rendering as an ISO-8601 "YYYY-MM-DD" string (the source calls
`date.isoformat()`). -/
structure Date where
  year : Nat
  month : Nat
  day : Nat
deriving Repr, DecidableEq

/-- Left-pad the decimal rendering of a number with zeros to width `w`,
as `date.isoformat` does for the year, month and day fields. -/
def padNum (w : Nat) (n : Nat) : String :=
  let s := toString n
  if s.length < w then String.mk (List.replicate (w - s.length) '0') ++ s else s

/-- Modelled from the spec: ISO-8601 rendering "YYYY-MM-DD" of a date,
standing in for Python's `date.isoformat()` used by the missing
`models.py` and by `list_all_account`. -/
def Date.isoformat (d : Date) : String :=
  padNum 4 d.year ++ "-" ++ padNum 2 d.month ++ "-" ++ padNum 2 d.day

/-- Modelled from the spec, §3: the sole entity.  `id` is a non-negative
integer assigned by storage, the four string fields come from the payload,
`date_joined` is assigned at creation. -/
structure Account where
  id : Nat
  name : String
  email : String
  address : String
  phone_number : String
  date_joined : Date
deriving Repr, DecidableEq

/-- A JSON scalar as it appears in the entity wire shape of §6. -/
inductive JValue where
  | int (n : Nat)
  | str (s : String)
deriving Repr, DecidableEq

/-- A JSON object: an ordered list of key-value pairs. -/
abbrev JObject := List (String × JValue)

/-- Modelled from the spec, §4.1 `serialize()`: a key-value map containing
`id`, `name`, `email`, `address`, `phone_number`, `date_joined`, the date
rendered as an ISO-8601 string. -/
def Account.serialize (a : Account) : JObject :=
  [ ("id", JValue.int a.id)
  , ("name", JValue.str a.name)
  , ("email", JValue.str a.email)
  , ("address", JValue.str a.address)
  , ("phone_number", JValue.str a.phone_number)
  , ("date_joined", JValue.str a.date_joined.isoformat) ]

/-- The parsed JSON body of a POST/PUT request.  Each recognized field is
present or absent; `name` and `email` are required by validation, `address`
and `phone_number` are optional (spec §3). -/
structure Payload where
  name : Option String
  email : Option String
  address : Option String
  phone_number : Option String
deriving Repr, DecidableEq

/-- Modelled from the spec, §4.1 `deserialize(payload)`: fails with a
validation error if `name` or `email` is missing; on success all recognized
fields are copied (optional ones defaulting to the empty string) and
unrecognized fields are ignored.  Per §9 the client cannot supply
`date_joined`; the caller provides the date the entity ends up with. -/
def deserializeFields (p : Payload) : Except String (String × String × String × String) :=
  match p.name, p.email with
  | some n, some e => Except.ok (n, e, p.address.getD "", p.phone_number.getD "")
  | _, _ => Except.error "missing name or email"

/-- Modelled from the spec, §4.3: the relational table, as the list of its
rows together with the next id the storage layer will generate. -/
structure Store where
  rows : List Account
  nextId : Nat
deriving Repr, DecidableEq

/-- Modelled from the spec, §4.1 `find(id)`: the single Account matching
`id`, or a "not found" sentinel (never raises for absence). -/
def Store.find (s : Store) (id : Nat) : Option Account :=
  s.rows.find? (fun a => a.id == id)

/-- An HTTP request as the handlers see it: the `Content-Type` header (absent
or some string) and the parsed JSON body. -/
structure Request where
  contentType : Option String
  body : Payload
deriving Repr, DecidableEq

/-- A response body: a JSON object, a JSON array of objects, or plain text
(the empty string for 204 responses). -/
inductive Body where
  | obj (o : JObject)
  | arr (l : List JObject)
  | text (s : String)
deriving Repr, DecidableEq

/-- An HTTP response: status code, body, and the `Location` header when the
handler sets one. -/
structure Response where
  status : Nat
  body : Body
  location : Option String
deriving Repr, DecidableEq

/-- Embedded from `routes.py` `check_content_type`: the header must be
present, truthy, and equal to the expected media type; otherwise the request
is aborted with 415.  Returns `true` when the check passes. -/
def check_content_type (ct : Option String) (media_type : String) : Bool :=
  match ct with
  | some c => !c.isEmpty && c == media_type
  | none => false

/-- The 415 response produced by `abort` in `check_content_type` (the error
handler that renders it lives outside the given sources; its body names the
expected media type per spec §6). -/
def mediaTypeResponse (media_type : String) : Response :=
  ⟨415, Body.text ("Content-Type must be " ++ media_type), none⟩

/-- Modelled from the spec, §7: a `ValidationError` raised by `deserialize`
is mapped by the error handler (outside the given sources) to 400 Bad
Request with a body describing the violation. -/
def badRequestResponse (msg : String) : Response :=
  ⟨400, Body.text msg, none⟩

/-- Embedded from `routes.py` `create_accounts`: check the content type,
deserialize the body, persist the row (storage assigns `id` and the creation
date `today`), and answer 201 with the serialized entity and a `Location`
header that the source sets to the placeholder "/". -/
def create_accounts (today : Date) (s : Store) (req : Request) : Response × Store :=
  if !check_content_type req.contentType "application/json" then
    (mediaTypeResponse "application/json", s)
  else
    match deserializeFields req.body with
    | Except.error msg => (badRequestResponse msg, s)
    | Except.ok (n, e, addr, ph) =>
      let account : Account := ⟨s.nextId, n, e, addr, ph, today⟩
      let location_url := "/"
      (⟨201, Body.obj account.serialize, some location_url⟩,
       ⟨s.rows ++ [account], s.nextId + 1⟩)

/-- Embedded from `routes.py` `list_all_account`, lines 77-85: the dictionary
built for each account, in the order the source writes its keys. -/
def listEntry (a : Account) : JObject :=
  [ ("id", JValue.int a.id)
  , ("name", JValue.str a.name)
  , ("email", JValue.str a.email)
  , ("address", JValue.str a.address)
  , ("phone_number", JValue.str a.phone_number)
  , ("date_joined", JValue.str a.date_joined.isoformat) ]

/-- Embedded from `routes.py` `list_all_account`: every row converted to a
dictionary, returned with `jsonify`'s default status 200. -/
def list_all_account (s : Store) : Response :=
  ⟨200, Body.arr (s.rows.map listEntry), none⟩

/-- Embedded from `routes.py` `read_an_account`: find the account by the
path id; 200 with its serialization, else 404 with plain-text "Not Found". -/
def read_an_account (s : Store) (id : Nat) : Response :=
  match s.find id with
  | some found => ⟨200, Body.obj found.serialize, none⟩
  | none => ⟨404, Body.text "Not Found", none⟩

/-- Embedded from `routes.py` `update_an_account`: check the content type,
find the account; if found, deserialize the body, pin `id` to the path
value, persist via `update()` (modelled from spec §4.1 as replacing the row
with that id) and answer 200 with the serialized entity; else 404.  The
fresh entity's `date_joined` is the storage default `d0` since the payload
cannot carry it (spec §9). -/
def update_an_account (d0 : Date) (s : Store) (id : Nat) (req : Request) :
    Response × Store :=
  if !check_content_type req.contentType "application/json" then
    (mediaTypeResponse "application/json", s)
  else
    match s.find id with
    | some _ =>
      match deserializeFields req.body with
      | Except.error msg => (badRequestResponse msg, s)
      | Except.ok (n, e, addr, ph) =>
        let account : Account := ⟨id, n, e, addr, ph, d0⟩
        (⟨200, Body.obj account.serialize, none⟩,
         ⟨s.rows.map (fun b => if b.id == id then account else b), s.nextId⟩)
    | none => (⟨404, Body.text "Not Found", none⟩, s)

/-- Embedded from `routes.py` `delete_an_account`: find the account by the
path id; if found, delete its row (modelled from spec §4.1 `delete()`:
removes the row identified by `id`) and answer 204 with an empty body; else
404 with plain-text "Not Found". -/
def delete_an_account (s : Store) (id : Nat) : Response × Store :=
  match s.find id with
  | some _ =>
    (⟨204, Body.text "", none⟩,
     ⟨s.rows.filter (fun a => a.id != id), s.nextId⟩)
  | none => (⟨404, Body.text "Not Found", none⟩, s)

/-! ### Theorems -/

/-- C1 (counterexample): with an empty store whose next generated id is 1,
a valid create request (Content-Type application/json, body with name
"Alice" and email "a@example.com") is answered 201 and creates the account
with id 1, yet the Location header is the placeholder "/" and not the
canonical URL "/accounts/1" of the created resource: the claim that the
Location header is set to the resource's canonical URL is false. -/
theorem create_location_not_canonical :
    (create_accounts ⟨2026, 10, 12⟩ ⟨[], 1⟩
        ⟨some "application/json",
         ⟨some "Alice", some "a@example.com", none, none⟩⟩).1.status = 201 ∧
    ((create_accounts ⟨2026, 10, 12⟩ ⟨[], 1⟩
        ⟨some "application/json",
         ⟨some "Alice", some "a@example.com", none, none⟩⟩).2.rows.map
          Account.id) = [1] ∧
    (create_accounts ⟨2026, 10, 12⟩ ⟨[], 1⟩
        ⟨some "application/json",
         ⟨some "Alice", some "a@example.com", none, none⟩⟩).1.location =
      some "/" ∧
    (create_accounts ⟨2026, 10, 12⟩ ⟨[], 1⟩
        ⟨some "application/json",
         ⟨some "Alice", some "a@example.com", none, none⟩⟩).1.location ≠
      some "/accounts/1" := by
  refine ⟨rfl, rfl, rfl, ?_⟩
  decide

/-- C1 (amended): for every valid create request (Content-Type
application/json and a body containing name and email), the response has
status 201, its body is the serialized created entity, the created entity
is appended to the store with the storage-generated id, and the Location
header is set to the placeholder "/" rather than the resource's canonical
URL. -/
theorem create_valid_201 (today : Date) (s : Store) (req : Request)
    (n e : String)
    (hct : req.contentType = some "application/json")
    (hn : req.body.name = some n) (he : req.body.email = some e) :
    (create_accounts today s req).1 =
      ⟨201,
       Body.obj (Account.serialize
         ⟨s.nextId, n, e, req.body.address.getD "",
          req.body.phone_number.getD "", today⟩),
       some "/"⟩ ∧
    (create_accounts today s req).2 =
      ⟨s.rows ++
        [⟨s.nextId, n, e, req.body.address.getD "",
          req.body.phone_number.getD "", today⟩],
       s.nextId + 1⟩ := by
  have hcc : check_content_type req.contentType "application/json" = true := by
    rw [hct]; decide
  simp [create_accounts, hcc, deserializeFields, hn, he]

/-- Witness for C1 (amended) at a concrete request and store. -/
theorem create_valid_201_witness :
    (create_accounts ⟨2025, 1, 2⟩ ⟨[], 1⟩
        ⟨some "application/json",
         ⟨some "Bob", some "b@example.com", some "1 Main St", some "555"⟩⟩).1 =
      ⟨201,
       Body.obj (Account.serialize
         ⟨1, "Bob", "b@example.com", "1 Main St", "555", ⟨2025, 1, 2⟩⟩),
       some "/"⟩ ∧
    (create_accounts ⟨2025, 1, 2⟩ ⟨[], 1⟩
        ⟨some "application/json",
         ⟨some "Bob", some "b@example.com", some "1 Main St", some "555"⟩⟩).2 =
      ⟨[⟨1, "Bob", "b@example.com", "1 Main St", "555", ⟨2025, 1, 2⟩⟩], 2⟩ :=
  create_valid_201 ⟨2025, 1, 2⟩ ⟨[], 1⟩
    ⟨some "application/json",
     ⟨some "Bob", some "b@example.com", some "1 Main St", some "555"⟩⟩
    "Bob" "b@example.com" rfl rfl rfl

/-- C2: every POST /accounts or PUT /accounts/id request whose Content-Type
header is missing or differs from application/json is answered 415,
whatever the body and whatever the store. -/
theorem wrong_media_type_415 (today d0 : Date) (s : Store) (id : Nat)
    (req : Request)
    (hct : req.contentType ≠ some "application/json") :
    (create_accounts today s req).1.status = 415 ∧
    (update_an_account d0 s id req).1.status = 415 := by
  have hcc : check_content_type req.contentType "application/json" = false := by
    cases hc : req.contentType with
    | none => rfl
    | some c =>
      have hne : c ≠ "application/json" := by
        intro hh
        exact hct (by rw [hc, hh])
      simp [check_content_type, hne]

  constructor
  · simp [create_accounts, hcc]
    rfl
  · simp [update_an_account, hcc]
    rfl

/-- Witness for C2 at a concrete text/html request with an otherwise valid
body. -/
theorem wrong_media_type_415_witness :
    (create_accounts ⟨2026, 1, 1⟩ ⟨[], 1⟩
        ⟨some "text/html",
         ⟨some "Alice", some "a@example.com", none, none⟩⟩).1.status = 415 ∧
    (update_an_account ⟨2026, 1, 1⟩ ⟨[], 1⟩ 1
        ⟨some "text/html",
         ⟨some "Alice", some "a@example.com", none, none⟩⟩).1.status = 415 :=
  wrong_media_type_415 ⟨2026, 1, 1⟩ ⟨2026, 1, 1⟩ ⟨[], 1⟩ 1
    ⟨some "text/html", ⟨some "Alice", some "a@example.com", none, none⟩⟩
    (by decide)

/-- C3: if no stored account has the requested id, GET /accounts/id answers
404 with the plain-text body "Not Found". -/
theorem read_missing_404 (s : Store) (id : Nat)
    (h : ∀ a ∈ s.rows, a.id ≠ id) :
    read_an_account s id = ⟨404, Body.text "Not Found", none⟩ := by
  have hf : s.find id = none := by
    simp only [Store.find, List.find?_eq_none, beq_iff_eq]
    exact h
  simp [read_an_account, hf]

/-- Witness for C3: reading id 7 from a store holding only id 1. -/
theorem read_missing_404_witness :
    read_an_account
      ⟨[⟨1, "Alice", "a@example.com", "", "", ⟨2026, 10, 12⟩⟩], 2⟩ 7 =
      ⟨404, Body.text "Not Found", none⟩ :=
  read_missing_404
    ⟨[⟨1, "Alice", "a@example.com", "", "", ⟨2026, 10, 12⟩⟩], 2⟩ 7
    (by decide)

/-- C4: if an account with the requested id is stored, DELETE /accounts/id
answers 204 with an empty body and removes every row with that id; a second
DELETE on the same id then answers 404. -/
theorem delete_existing_204_then_404 (s : Store) (id : Nat) (a : Account)
    (h : s.find id = some a) :
    (delete_an_account s id).1 = ⟨204, Body.text "", none⟩ ∧
    (∀ b ∈ (delete_an_account s id).2.rows, b.id ≠ id) ∧
    (delete_an_account (delete_an_account s id).2 id).1 =
      ⟨404, Body.text "Not Found", none⟩ := by
  have hdel : delete_an_account s id =
      (⟨204, Body.text "", none⟩,
       ⟨s.rows.filter (fun b => b.id != id), s.nextId⟩) := by
    simp [delete_an_account, h]
  have hmem : ∀ b ∈ s.rows.filter (fun b => b.id != id), b.id ≠ id := by
    intro b hb
    have := (List.mem_filter.mp hb).2
    simpa using this
  refine ⟨by rw [hdel], ?_, ?_⟩
  · intro b hb
    rw [hdel] at hb
    exact hmem b hb
  · have hf2 : (⟨s.rows.filter (fun b => b.id != id), s.nextId⟩ : Store).find id
        = none := by
      simp only [Store.find, List.find?_eq_none, beq_iff_eq]
      exact hmem
    rw [hdel]
    simp [delete_an_account, hf2]

/-- Witness for C4: deleting id 1 from a store holding ids 1 and 2. -/
theorem delete_existing_204_then_404_witness :
    (delete_an_account
        ⟨[⟨1, "Alice", "a@x", "", "", ⟨2026, 10, 12⟩⟩,
          ⟨2, "Bob", "b@x", "", "", ⟨2025, 1, 2⟩⟩], 3⟩ 1).1 =
      ⟨204, Body.text "", none⟩ ∧
    (∀ b ∈ (delete_an_account
        ⟨[⟨1, "Alice", "a@x", "", "", ⟨2026, 10, 12⟩⟩,
          ⟨2, "Bob", "b@x", "", "", ⟨2025, 1, 2⟩⟩], 3⟩ 1).2.rows, b.id ≠ 1) ∧
    (delete_an_account (delete_an_account
        ⟨[⟨1, "Alice", "a@x", "", "", ⟨2026, 10, 12⟩⟩,
          ⟨2, "Bob", "b@x", "", "", ⟨2025, 1, 2⟩⟩], 3⟩ 1).2 1).1 =
      ⟨404, Body.text "Not Found", none⟩ :=
  delete_existing_204_then_404
    ⟨[⟨1, "Alice", "a@x", "", "", ⟨2026, 10, 12⟩⟩,
      ⟨2, "Bob", "b@x", "", "", ⟨2025, 1, 2⟩⟩], 3⟩ 1
    ⟨1, "Alice", "a@x", "", "", ⟨2026, 10, 12⟩⟩ (by decide)

/-- C5: if no stored account has the requested id, PUT /accounts/id with
Content-Type application/json answers 404 with the plain-text "Not Found"
body and leaves the store unchanged: no row is created. -/
theorem update_missing_404 (d0 : Date) (s : Store) (id : Nat) (req : Request)
    (hct : req.contentType = some "application/json")
    (h : ∀ a ∈ s.rows, a.id ≠ id) :
    (update_an_account d0 s id req).1 = ⟨404, Body.text "Not Found", none⟩ ∧
    (update_an_account d0 s id req).2 = s := by
  have hcc : check_content_type req.contentType "application/json" = true := by
    rw [hct]; decide
  have hf : s.find id = none := by
    simp only [Store.find, List.find?_eq_none, beq_iff_eq]
    exact h
  simp [update_an_account, hcc, hf]

/-- Witness for C5: updating id 9 in a store holding only id 1. -/
theorem update_missing_404_witness :
    (update_an_account ⟨2026, 1, 1⟩
        ⟨[⟨1, "Alice", "a@x", "", "", ⟨2026, 10, 12⟩⟩], 2⟩ 9
        ⟨some "application/json",
         ⟨some "New", some "n@x", none, none⟩⟩).1 =
      ⟨404, Body.text "Not Found", none⟩ ∧
    (update_an_account ⟨2026, 1, 1⟩
        ⟨[⟨1, "Alice", "a@x", "", "", ⟨2026, 10, 12⟩⟩], 2⟩ 9
        ⟨some "application/json",
         ⟨some "New", some "n@x", none, none⟩⟩).2 =
      ⟨[⟨1, "Alice", "a@x", "", "", ⟨2026, 10, 12⟩⟩], 2⟩ :=
  update_missing_404 ⟨2026, 1, 1⟩
    ⟨[⟨1, "Alice", "a@x", "", "", ⟨2026, 10, 12⟩⟩], 2⟩ 9
    ⟨some "application/json", ⟨some "New", some "n@x", none, none⟩⟩
    rfl (by decide)

/-- C6: if an account with the requested id is stored, PUT /accounts/id with
a full valid replacement payload answers 200 and the returned object's
name, email, address and phone_number equal exactly the payload's values,
while its id equals the path's id value. -/
theorem update_existing_200 (d0 : Date) (s : Store) (id : Nat) (req : Request)
    (n e addr ph : String) (a : Account)
    (hct : req.contentType = some "application/json")
    (hf : s.find id = some a)
    (hn : req.body.name = some n) (he : req.body.email = some e)
    (ha : req.body.address = some addr)
    (hp : req.body.phone_number = some ph) :
    (update_an_account d0 s id req).1.status = 200 ∧
    ∃ o : JObject, (update_an_account d0 s id req).1.body = Body.obj o ∧
      o.lookup "name" = some (JValue.str n) ∧
      o.lookup "email" = some (JValue.str e) ∧
      o.lookup "address" = some (JValue.str addr) ∧
      o.lookup "phone_number" = some (JValue.str ph) ∧
      o.lookup "id" = some (JValue.int id) := by
  have hcc : check_content_type req.contentType "application/json" = true := by
    rw [hct]; decide
  have hres : (update_an_account d0 s id req).1 =
      ⟨200, Body.obj (Account.serialize ⟨id, n, e, addr, ph, d0⟩), none⟩ := by
    simp [update_an_account, hcc, hf, deserializeFields, hn, he, ha, hp]
  refine ⟨by rw [hres], Account.serialize ⟨id, n, e, addr, ph, d0⟩,
    by rw [hres], ?_, ?_, ?_, ?_, ?_⟩ <;>
    simp [Account.serialize, List.lookup]

/-- Witness for C6: replacing the account with id 1 by a full payload. -/
theorem update_existing_200_witness :
    (update_an_account ⟨2026, 1, 1⟩
        ⟨[⟨1, "Alice", "a@x", "Old St", "111", ⟨2026, 10, 12⟩⟩], 2⟩ 1
        ⟨some "application/json",
         ⟨some "New", some "n@x", some "New St", some "222"⟩⟩).1.status = 200 ∧
    ∃ o : JObject,
      (update_an_account ⟨2026, 1, 1⟩
          ⟨[⟨1, "Alice", "a@x", "Old St", "111", ⟨2026, 10, 12⟩⟩], 2⟩ 1
          ⟨some "application/json",
           ⟨some "New", some "n@x", some "New St", some "222"⟩⟩).1.body =
        Body.obj o ∧
      o.lookup "name" = some (JValue.str "New") ∧
      o.lookup "email" = some (JValue.str "n@x") ∧
      o.lookup "address" = some (JValue.str "New St") ∧
      o.lookup "phone_number" = some (JValue.str "222") ∧
      o.lookup "id" = some (JValue.int 1) :=
  update_existing_200 ⟨2026, 1, 1⟩
    ⟨[⟨1, "Alice", "a@x", "Old St", "111", ⟨2026, 10, 12⟩⟩], 2⟩ 1
    ⟨some "application/json",
     ⟨some "New", some "n@x", some "New St", some "222"⟩⟩
    "New" "n@x" "New St" "222"
    ⟨1, "Alice", "a@x", "Old St", "111", ⟨2026, 10, 12⟩⟩
    rfl (by decide) rfl rfl rfl rfl

/-- C7: a POST /accounts with Content-Type application/json whose body lacks
name or lacks email answers 400 and leaves the store unchanged, so a
subsequent GET /accounts returns the same list (in particular the same
number of accounts) as before. -/
theorem create_missing_field_400 (today : Date) (s : Store) (req : Request)
    (hct : req.contentType = some "application/json")
    (h : req.body.name = none ∨ req.body.email = none) :
    (create_accounts today s req).1.status = 400 ∧
    (create_accounts today s req).2 = s ∧
    list_all_account (create_accounts today s req).2 = list_all_account s := by
  have hcc : check_content_type req.contentType "application/json" = true := by
    rw [hct]; decide
  have hde : ∃ msg, deserializeFields req.body = Except.error msg := by
    rcases h with hn | he
    · exact ⟨"missing name or email", by
        cases hm : req.body.email <;> simp [deserializeFields, hn, hm]⟩
    · exact ⟨"missing name or email", by
        cases hm : req.body.name <;> simp [deserializeFields, he, hm]⟩
  rcases hde with ⟨msg, hmsg⟩
  refine ⟨?_, ?_, ?_⟩ <;> simp [create_accounts, hcc, hmsg, badRequestResponse]

/-- Witness for C7: a JSON create request whose body has a name but no
email. -/
theorem create_missing_field_400_witness :
    (create_accounts ⟨2026, 1, 1⟩ ⟨[], 1⟩
        ⟨some "application/json",
         ⟨some "not enough data", none, none, none⟩⟩).1.status = 400 ∧
    (create_accounts ⟨2026, 1, 1⟩ ⟨[], 1⟩
        ⟨some "application/json",
         ⟨some "not enough data", none, none, none⟩⟩).2 = ⟨[], 1⟩ ∧
    list_all_account (create_accounts ⟨2026, 1, 1⟩ ⟨[], 1⟩
        ⟨some "application/json",
         ⟨some "not enough data", none, none, none⟩⟩).2 =
      list_all_account ⟨[], 1⟩ :=
  create_missing_field_400 ⟨2026, 1, 1⟩ ⟨[], 1⟩
    ⟨some "application/json", ⟨some "not enough data", none, none, none⟩⟩
    rfl (Or.inr rfl)

/-- C8: for every store state, GET /accounts answers 200 with an array
holding one object per stored row; each object has exactly the keys id,
name, email, address, phone_number and date_joined in that order, and its
date_joined value is the ISO-8601 rendering of the stored date. -/
theorem list_all_shape (s : Store) :
    (list_all_account s).status = 200 ∧
    (list_all_account s).body = Body.arr (s.rows.map listEntry) ∧
    ∀ a : Account,
      (listEntry a).map Prod.fst =
        ["id", "name", "email", "address", "phone_number", "date_joined"] ∧
      (listEntry a).lookup "date_joined" =
        some (JValue.str a.date_joined.isoformat) := by
  refine ⟨rfl, rfl, ?_⟩
  intro a
  constructor
  · rfl
  · simp [listEntry, List.lookup]

/-- C9: in the update handler the content-type check runs before the
existence check: a PUT /accounts/id whose Content-Type is missing or not
application/json is answered 415 even when no stored account has that id. -/
theorem update_media_type_precedes_404 (d0 : Date) (s : Store) (id : Nat)
    (req : Request)
    (hct : req.contentType ≠ some "application/json")
    (hmissing : ∀ a ∈ s.rows, a.id ≠ id) :
    (update_an_account d0 s id req).1.status = 415 := by
  have hcc : check_content_type req.contentType "application/json" = false := by
    cases hc : req.contentType with
    | none => rfl
    | some c =>
      have hne : c ≠ "application/json" := by
        intro hh
        exact hct (by rw [hc, hh])
      simp [check_content_type, hne]
  simp [update_an_account, hcc]
  rfl

/-- Witness for C9: a PUT without any Content-Type against an empty store. -/
theorem update_media_type_precedes_404_witness :
    (update_an_account ⟨2026, 1, 1⟩ ⟨[], 1⟩ 5
        ⟨none, ⟨some "Alice", some "a@x", none, none⟩⟩).1.status = 415 :=
  update_media_type_precedes_404 ⟨2026, 1, 1⟩ ⟨[], 1⟩ 5
    ⟨none, ⟨some "Alice", some "a@x", none, none⟩⟩ (by decide) (by decide)

/-- C10: if an account with the requested id is stored, DELETE /accounts/id
removes only the rows with that id: the remaining rows are exactly the
original rows whose id differs, so every other stored account is kept with
all of its fields unchanged. -/
theorem delete_frame (s : Store) (id : Nat) (a : Account)
    (h : s.find id = some a) :
    (delete_an_account s id).2.rows = s.rows.filter (fun b => b.id != id) ∧
    ∀ b ∈ s.rows, b.id ≠ id → b ∈ (delete_an_account s id).2.rows := by
  have hdel : (delete_an_account s id).2.rows =
      s.rows.filter (fun b => b.id != id) := by
    simp [delete_an_account, h]
  refine ⟨hdel, ?_⟩
  intro b hb hbid
  rw [hdel]
  refine List.mem_filter.mpr ⟨hb, ?_⟩
  simpa using hbid

/-- Witness for C10: deleting id 1 keeps the account with id 2 intact. -/
theorem delete_frame_witness :
    (delete_an_account
        ⟨[⟨1, "Alice", "a@x", "", "", ⟨2026, 10, 12⟩⟩,
          ⟨2, "Bob", "b@x", "2 Main", "555", ⟨2025, 1, 2⟩⟩], 3⟩ 1).2.rows =
      List.filter (fun b => b.id != 1)
        [⟨1, "Alice", "a@x", "", "", ⟨2026, 10, 12⟩⟩,
         ⟨2, "Bob", "b@x", "2 Main", "555", ⟨2025, 1, 2⟩⟩] ∧
    ∀ b ∈ [(⟨1, "Alice", "a@x", "", "", ⟨2026, 10, 12⟩⟩ : Account),
           ⟨2, "Bob", "b@x", "2 Main", "555", ⟨2025, 1, 2⟩⟩],
      b.id ≠ 1 →
      b ∈ (delete_an_account
        ⟨[⟨1, "Alice", "a@x", "", "", ⟨2026, 10, 12⟩⟩,
          ⟨2, "Bob", "b@x", "2 Main", "555", ⟨2025, 1, 2⟩⟩], 3⟩ 1).2.rows :=
  delete_frame
    ⟨[⟨1, "Alice", "a@x", "", "", ⟨2026, 10, 12⟩⟩,
      ⟨2, "Bob", "b@x", "2 Main", "555", ⟨2025, 1, 2⟩⟩], 3⟩ 1
    ⟨1, "Alice", "a@x", "", "", ⟨2026, 10, 12⟩⟩ (by decide)

end AccountService
